import Mathlib

/-!
Shallow embedding of the client-side voting state machine of the voting-app
repository: the Vote State Store (`VotingContext`), the per-contestant voting
hook (`useContestantVoting`), the localStorage adapter (`useLocalStorage`) and
the polling controller (`usePolling`), together with proofs of the spec's
claims about them.

Conventions of the embedding:
- JavaScript `Set<string>` values are modelled as duplicate-free
  `List String` in insertion order; `Set.add` appends a new element at the
  end and leaves the set unchanged when the element is present.
- `Date` values are modelled as `Int` epoch timestamps; `Date.toISOString`
  is modelled as an injective rendering of the timestamp to a `String` and
  `new Date(iso)` as its parse (the claims never depend on the concrete
  ISO-8601 text, only on the round trip through the string type).
- `async` calls are modelled by passing the outcome of the awaited call as
  an explicit argument; each operation that may invoke the submission
  client returns, next to the new state, a `Bool` recording whether a
  submission was actually dispatched.
- React `useState`/`useReducer` cells become fields of explicit state
  records threaded through the operations.
-/

namespace VotingApp

/-- Model of JavaScript `Set.add` on an insertion-ordered duplicate-free
list: appends the element when absent, does nothing when present. -/
def jsSetAdd (s : List String) (x : String) : List String :=
  if x ∈ s then s else s ++ [x]

/-- Model of `new Set(list)`: inserts the elements of the list in order,
keeping the first occurrence of each duplicate. -/
def jsSetOfList (l : List String) : List String :=
  l.foldl jsSetAdd []

/-- Kernel-reducible total order on strings (character-list lexicographic
order extended to a reflexive relation), standing in for the JavaScript
default array sort comparator used only as an order-insensitive equality
gate in the source. -/
def strLe (a b : String) : Bool := decide (a.data < b.data) || decide (a = b)

/-- Insertion step of the sorting function used to model
`array.sort()` comparisons in the source. -/
def insertSorted (x : String) : List String → List String
  | [] => [x]
  | y :: ys => if strLe x y then x :: y :: ys else y :: insertSorted x ys

/-- Model of `array.slice().sort()` on the voted-contestant arrays. -/
def sortVotes (l : List String) : List String := l.foldr insertSorted []

/-- Model of `Date.toISOString`: an injective rendering of the epoch
timestamp. -/
def isoString (t : Int) : String := toString t

/-- Model of `new Date(iso)` on strings produced by `isoString`. -/
def parseIso (s : String) : Int := (s.toInt?).getD 0

/-- Error categories of `ErrorType` in `src/types/errors`. -/
inductive ErrorType
  | NETWORK_ERROR
  | VALIDATION_ERROR
  | STORAGE_ERROR
  | COMPONENT_ERROR
  | VOTE_ERROR
  | POLLING_ERROR
  | SESSION_ERROR
deriving DecidableEq, Repr

/-- The `AppError` record (`type`, `message`, `recoverable`). The optional
`retryAction` closure of the source is modelled only where a claim depends
on it (see `VoteError.retryContestantId`). -/
structure AppError where
  type : ErrorType
  message : String
  recoverable : Bool
deriving DecidableEq, Repr

/-- The `VotingSession` record of `src/types/voting`; timestamps are epoch
instants and the contestant roster is the list of eligible ids. -/
structure VotingSession where
  id : String
  isActive : Bool
  startTime : Int
  endTime : Int
  maxVotesPerUser : Nat
  contestants : List String
deriving DecidableEq, Repr

/-- The `Contestant` record of `src/types/contestant`, restricted to the
fields the state machine reads. -/
structure Contestant where
  id : String
  name : String
  voteCount : Nat
  isActive : Bool
deriving DecidableEq, Repr

/-- The `UserVoteState` record: voted set (JS `Set<string>` as a
duplicate-free insertion-ordered list), total counter and timestamp. -/
structure UserVoteState where
  sessionId : String
  votedContestants : List String
  totalVotes : Nat
  lastUpdated : Int
deriving DecidableEq, Repr

/-- The `SerializableUserVoteState` record: voted set encoded as a plain
list and the timestamp as a string. -/
structure SerializableUserVoteState where
  sessionId : String
  votedContestants : List String
  totalVotes : Nat
  lastUpdated : String
deriving DecidableEq, Repr

/-- Serialization performed by the persistence effect of `VotingProvider`:
`Array.from(set)` on the voted set and `toISOString` on the timestamp. -/
def serializeVoteState (u : UserVoteState) : SerializableUserVoteState :=
  { sessionId := u.sessionId
    votedContestants := u.votedContestants
    totalVotes := u.totalVotes
    lastUpdated := isoString u.lastUpdated }

/-- Deserialization performed by the restore effect of `VotingProvider`:
`new Set(list)` on the stored list and `new Date(iso)` on the timestamp. -/
def deserializeVoteState (s : SerializableUserVoteState) : UserVoteState :=
  { sessionId := s.sessionId
    votedContestants := jsSetOfList s.votedContestants
    totalVotes := s.totalVotes
    lastUpdated := parseIso s.lastUpdated }

/-- The state record held by the `votingReducer` of `VotingContext`. -/
structure VotingState where
  loading : Bool
  error : Option AppError
  session : Option VotingSession
  contestants : List Contestant
  userVoteState : UserVoteState
  votingWindowActive : Bool
deriving DecidableEq, Repr

/-- The module-level `initialState` of `VotingContext` (the load-time
`new Date()` is the abstract instant `0`). -/
def initialState : VotingState :=
  { loading := false
    error := none
    session := none
    contestants := []
    userVoteState :=
      { sessionId := ""
        votedContestants := []
        totalVotes := 0
        lastUpdated := 0 }
    votingWindowActive := false }

/-- The actions of the `votingReducer`. -/
inductive VotingAction
  | SET_LOADING (b : Bool)
  | SET_ERROR (e : Option AppError)
  | SET_SESSION (s : Option VotingSession)
  | SET_CONTESTANTS (cs : List Contestant)
  | UPDATE_CONTESTANT (c : Contestant)
  | SET_USER_VOTE_STATE (u : UserVoteState)
  | ADD_VOTE (contestantId : String)
  | SET_VOTING_WINDOW_STATUS (b : Bool)
  | RESET_STATE
deriving DecidableEq, Repr

/-- The `votingReducer` of `VotingContext`; `now` stands for the value of
`new Date()` at the instant the action is dispatched. -/
def votingReducer (now : Int) (state : VotingState) (action : VotingAction) : VotingState :=
  match action with
  | .SET_LOADING b => { state with loading := b }
  | .SET_ERROR e => { state with error := e }
  | .SET_SESSION s =>
      let isVotingActive : Bool :=
        match s with
        | some sess => sess.isActive && decide (sess.startTime ≤ now) && decide (now ≤ sess.endTime)
        | none => false
      { state with
          session := s
          votingWindowActive := isVotingActive
          userVoteState :=
            match s with
            | some sess => { state.userVoteState with sessionId := sess.id }
            | none => state.userVoteState }
  | .SET_CONTESTANTS cs => { state with contestants := cs }
  | .UPDATE_CONTESTANT c =>
      { state with
          contestants := state.contestants.map (fun x => if x.id = c.id then c else x) }
  | .SET_USER_VOTE_STATE u => { state with userVoteState := u }
  | .ADD_VOTE contestantId =>
      { state with
          userVoteState :=
            { state.userVoteState with
                votedContestants := jsSetAdd state.userVoteState.votedContestants contestantId
                totalVotes := state.userVoteState.totalVotes + 1
                lastUpdated := now } }
  | .SET_VOTING_WINDOW_STATUS b => { state with votingWindowActive := b }
  | .RESET_STATE => initialState

/-- The `hasVotedFor` computed value of `VotingContext`. -/
def hasVotedFor (st : VotingState) (contestantId : String) : Bool :=
  st.userVoteState.votedContestants.contains contestantId

/-- The `canVote` computed value of `VotingContext`: false without a session
or outside the voting window, otherwise `totalVotes < maxVotesPerUser`. -/
def canVote (st : VotingState) : Bool :=
  match st.session with
  | none => false
  | some sess =>
      if !st.votingWindowActive then false
      else decide (st.userVoteState.totalVotes < sess.maxVotesPerUser)

/-- The `remainingVotes` computed value of `VotingContext`. -/
def remainingVotes (st : VotingState) : Nat :=
  match st.session with
  | none => 0
  | some sess => sess.maxVotesPerUser - st.userVoteState.totalVotes

/-- The browser localStorage contents visible to the store, as an
association list from keys to stored (already-parsed) serialized vote
states. -/
abbrev VoteStore := List (String × SerializableUserVoteState)

/-- Write-through of `localStorage.setItem`: replaces the entry for the key
or appends a fresh one. -/
def storeWrite (m : VoteStore) (k : String) (v : SerializableUserVoteState) : VoteStore :=
  if m.any (fun p => p.1 = k) then
    m.map (fun p => if p.1 = k then (k, v) else p)
  else m ++ [(k, v)]

/-- Lookup of `localStorage.getItem`. -/
def storeRead (m : VoteStore) (k : String) : Option SerializableUserVoteState :=
  (m.find? (fun p => p.1 = k)).map (fun p => p.2)

/-- The whole client-side system: the reducer state of `VotingContext`
together with the persisted localStorage contents. -/
structure SysState where
  voting : VotingState
  store : VoteStore
deriving DecidableEq, Repr

/-- The namespaced storage key of `VotingProvider`:
`voting-state-` followed by the session id, or `default`. -/
def storageKey (st : VotingState) : String :=
  "voting-state-" ++ (match st.session with | some sess => sess.id | none => "default")

/-- The `defaultStorageState` fallback of `VotingProvider`. -/
def defaultStorageState (now : Int) (st : VotingState) : SerializableUserVoteState :=
  { sessionId := match st.session with | some sess => sess.id | none => ""
    votedContestants := []
    totalVotes := 0
    lastUpdated := isoString now }

/-- The value the `useLocalStorage(storageKey, defaultStorageState)` hook
exposes to `VotingProvider`: the persisted entry for the current key, or
the default. -/
def storedVoteState (now : Int) (s : SysState) : SerializableUserVoteState :=
  (storeRead s.store (storageKey s.voting)).getD (defaultStorageState now s.voting)

/-- The order-insensitive comparison both `VotingProvider` effects make
between two voted-contestant arrays (length check plus element-wise
comparison of the sorted copies). -/
def sameVoteLists (a b : List String) : Bool :=
  decide (a.length = b.length) && decide (sortVotes a = sortVotes b)

/-- The persistence effect of `VotingProvider`: when the user vote state
carries a session id and differs (by totals or sorted voted lists) from
the stored value, the serialized state is written to localStorage. -/
def applyPersist (now : Int) (s : SysState) : SysState :=
  if s.voting.userVoteState.sessionId = "" then s
  else
    let ser := serializeVoteState s.voting.userVoteState
    let stored := storedVoteState now s
    let hasChanged : Bool :=
      !(decide (stored.totalVotes = ser.totalVotes) &&
        sameVoteLists stored.votedContestants ser.votedContestants)
    if hasChanged then { s with store := storeWrite s.store (storageKey s.voting) ser }
    else s

/-- The restore effect of `VotingProvider`: when a session is present and
the stored value matches its id, carries at least one vote and differs
from the in-memory state, the stored value is deserialized and installed
via `SET_USER_VOTE_STATE`. -/
def applyRestore (now : Int) (s : SysState) : SysState :=
  match s.voting.session with
  | none => s
  | some sess =>
      let stored := storedVoteState now s
      let isDifferent : Bool :=
        !(decide (s.voting.userVoteState.totalVotes = stored.totalVotes) &&
          sameVoteLists s.voting.userVoteState.votedContestants stored.votedContestants)
      if stored.sessionId = sess.id ∧ 0 < stored.totalVotes ∧ isDifferent = true then
        { s with
            voting := votingReducer now s.voting (.SET_USER_VOTE_STATE (deserializeVoteState stored)) }
      else s

/-- The `AlreadyVoted` local-validation error literal of
`VotingContext.addVote`. -/
def alreadyVotedError : AppError :=
  { type := .VOTE_ERROR
    message := "You have already voted for this contestant"
    recoverable := false }

/-- The voting-limit local-validation error literal of
`VotingContext.addVote`, produced whenever `canVote()` is false. -/
def voteLimitError : AppError :=
  { type := .VOTE_ERROR
    message := "You have reached your voting limit"
    recoverable := false }

/-- The recoverable error `VotingContext.addVote` surfaces when the
submission client throws with message `msg`. -/
def voteSubmitError (msg : String) : AppError :=
  { type := .VOTE_ERROR, message := msg, recoverable := true }

/-- The `setSession` operation: dispatches `SET_SESSION`, after which the
persistence effect runs. -/
def setSessionOp (sess : Option VotingSession) (now : Int) (s : SysState) : SysState :=
  applyPersist now { s with voting := votingReducer now s.voting (.SET_SESSION sess) }

/-- The `addVote` operation of `VotingContext`. `outcome` is the result of
the awaited `mockDataService.submitVote` call: `none` when it resolves,
`some msg` when it throws with message `msg`. The returned `Bool` records
whether a submission was dispatched. -/
def addVoteOp (contestantId : String) (outcome : Option String) (now : Int) (s : SysState) :
    SysState × Bool :=
  if contestantId ∈ s.voting.userVoteState.votedContestants then
    ({ s with voting := votingReducer now s.voting (.SET_ERROR (some alreadyVotedError)) }, false)
  else if !canVote s.voting then
    ({ s with voting := votingReducer now s.voting (.SET_ERROR (some voteLimitError)) }, false)
  else
    match outcome with
    | none =>
        (applyPersist now { s with voting := votingReducer now s.voting (.ADD_VOTE contestantId) },
         true)
    | some msg =>
        ({ s with voting := votingReducer now s.voting (.SET_ERROR (some (voteSubmitError msg))) },
         true)

/-- The `resetState` operation: dispatches `RESET_STATE`, after which the
persistence effect runs (and writes nothing, the reset session id being
empty). -/
def resetStateOp (now : Int) (s : SysState) : SysState :=
  applyPersist now { s with voting := votingReducer now s.voting .RESET_STATE }

/-- The storage-restore operation: the restore effect followed by the
persistence effect. -/
def restoreOp (now : Int) (s : SysState) : SysState :=
  applyPersist now (applyRestore now s)

/-- The initial system: the module-level initial state and empty
localStorage. -/
def initSys : SysState := { voting := initialState, store := [] }

/-- One step of the public interface named by the reachability claim:
`setSession`, `addVote`, `resetState`, or a storage restore. -/
inductive SysStep : SysState → SysState → Prop
  | setSession (s : SysState) (sess : Option VotingSession) (now : Int) :
      SysStep s (setSessionOp sess now s)
  | addVote (s : SysState) (contestantId : String) (outcome : Option String) (now : Int) :
      SysStep s (addVoteOp contestantId outcome now s).1
  | reset (s : SysState) (now : Int) : SysStep s (resetStateOp now s)
  | restore (s : SysState) (now : Int) : SysStep s (restoreOp now s)

/-- States reachable from the initial system by the public operations. -/
inductive Reachable : SysState → Prop
  | init : Reachable initSys
  | step {s s' : SysState} : Reachable s → SysStep s s' → Reachable s'

/-- Vote-specific error codes of `VoteErrorCode` in `src/types/errors`. -/
inductive VoteErrorCode
  | ALREADY_VOTED
  | VOTE_LIMIT_EXCEEDED
  | VOTING_CLOSED
  | CONTESTANT_INACTIVE
  | INVALID_CONTESTANT
  | NETWORK_FAILURE
deriving DecidableEq, Repr

/-- The `VoteError` record of `useContestantVoting`. The `retryAction`
closure — always `vote` for the hook's own contestant when present — is
modelled by `retryContestantId`: the contestant the retry re-invokes the
vote for, `none` when no retry action is attached. -/
structure VoteError where
  code : VoteErrorCode
  message : String
  recoverable : Bool
  retryContestantId : Option String
deriving DecidableEq, Repr

/-- The `createVoteError` helper of `useContestantVoting`:
`recoverable` is exactly the presence of a retry action. -/
def createVoteError (contestantId : String) (code : VoteErrorCode) (message : String)
    (retry : Bool) : VoteError :=
  { code := code
    message := message
    recoverable := retry
    retryContestantId := if retry then some contestantId else none }

/-- The state cells of one `useContestantVoting` hook instance:
`isVoting`, `voteCount`, `error`, the `useLocalStorage` value `voteState`,
and its persisted copy (the hook's `setValue` writes through). -/
structure HookState where
  isVoting : Bool
  voteCount : Nat
  error : Option VoteError
  voteState : SerializableUserVoteState
  stored : Option SerializableUserVoteState
deriving DecidableEq, Repr

/-- Outcome of the awaited `submitVote(contestantId)` call of the hook:
either the promise rejects with an error message, or it resolves with
`{ success, voteCount, error }`. -/
inductive SubmitOutcome
  | thrown (msg : String)
  | response (success : Bool) (voteCount : Nat) (error : Option String)
deriving DecidableEq, Repr

/-- The synchronous phase of `useContestantVoting.vote` before the await:
`setIsVoting(true)`, `setError(null)`, the optimistic vote state pushed
through `setVoteState` (which persists it) and `setVoteCount(prev + 1)`. -/
def voteStart (now : String) (contestantId : String) (st : HookState) : HookState :=
  let optimistic : SerializableUserVoteState :=
    { st.voteState with
        votedContestants := st.voteState.votedContestants ++ [contestantId]
        totalVotes := st.voteState.totalVotes + 1
        lastUpdated := now }
  { st with
      isVoting := true
      error := none
      voteState := optimistic
      stored := some optimistic
      voteCount := st.voteCount + 1 }

/-- The error-code classification of server-side failures in
`useContestantVoting.vote` (`switch (response.error)`). -/
def classifyServerError (e : Option String) : VoteErrorCode × String :=
  match e with
  | some "VOTE_LIMIT_EXCEEDED" => (.VOTE_LIMIT_EXCEEDED, "You have reached your voting limit")
  | some "VOTING_CLOSED" => (.VOTING_CLOSED, "Voting window has closed")
  | some "CONTESTANT_INACTIVE" => (.CONTESTANT_INACTIVE, "This contestant is no longer active")
  | some msg => (.INVALID_CONTESTANT, msg)
  | none => (.INVALID_CONTESTANT, "Failed to submit vote")

/-- The resolution phase of `useContestantVoting.vote` after the await:
commit on success, rollback to the snapshotted original state plus a
recoverable error carrying the retry action otherwise; `finally` resets
`isVoting`. -/
def voteFinish (contestantId : String) (original : SerializableUserVoteState)
    (originalCount : Nat) (outcome : SubmitOutcome) (st : HookState) : HookState :=
  match outcome with
  | .response true vc _ => { st with voteCount := vc, isVoting := false }
  | .response false _ e =>
      let cm := classifyServerError e
      { st with
          voteState := original
          stored := some original
          voteCount := originalCount
          error := some (createVoteError contestantId cm.1 cm.2 true)
          isVoting := false }
  | .thrown msg =>
      { st with
          voteState := original
          stored := some original
          voteCount := originalCount
          error := some (createVoteError contestantId .NETWORK_FAILURE msg true)
          isVoting := false }

/-- The `vote` handler of `useContestantVoting`: fail fast when the
contestant is already in the voted set, return silently when a vote is in
flight, otherwise snapshot, apply the optimistic phase, await the
submission and resolve it. The `Bool` records whether a submission was
dispatched. -/
def voteOp (now : String) (contestantId : String) (st : HookState) (outcome : SubmitOutcome) :
    HookState × Bool :=
  if contestantId ∈ st.voteState.votedContestants then
    ({ st with
        error := some (createVoteError contestantId .ALREADY_VOTED
          "You have already voted for this contestant" false) },
     false)
  else if st.isVoting then (st, false)
  else
    (voteFinish contestantId st.voteState st.voteCount outcome (voteStart now contestantId st),
     true)

/-- The state cells of one `useLocalStorage` hook instance for values of
type `T`: the in-memory `value`, the persisted entry for the hook's key
(`none` when absent), the `error` field and the `isSupported` flag. -/
structure LocalStore (T : Type) where
  value : T
  stored : Option T
  error : Option AppError
  isSupported : Bool

/-- The `StorageError` literal `useLocalStorage.setStoredValue` produces
when `localStorage.setItem` throws. -/
def storageWriteError (key : String) : AppError :=
  { type := .STORAGE_ERROR
    message := "Failed to save value to localStorage for key \x22" ++ key ++ "\x22"
    recoverable := true }

/-- The `setStoredValue` operation of `useLocalStorage` on a plain value:
updates the in-memory value first, then attempts the persistent write when
supported; a throwing `setItem` (`writeThrows`) is caught and recorded in
the error field, never propagated — the function is total and always
returns a state. -/
def setStoredValue {T : Type} (key : String) (st : LocalStore T) (newValue : T)
    (writeThrows : Bool) : LocalStore T :=
  let updated := { st with value := newValue }
  if st.isSupported then
    if writeThrows then { updated with error := some (storageWriteError key) }
    else { updated with stored := some newValue, error := none }
  else { updated with error := none }

/-- The state cells of one `usePolling` hook instance, together with the
set of live interval timers the browser holds for it: `nextId` numbers the
timers `setInterval` hands out, `activeTimers` lists the live timers as
`(id, interval)` pairs, `intervalRef` is the hook's `intervalRef.current`,
and `immediateRuns` counts the synchronous immediate invocations of the
refresh callback. -/
structure PollState where
  nextId : Nat
  activeTimers : List (Nat × Nat)
  intervalRef : Option Nat
  isPolling : Bool
  pollError : Option String
  immediateRuns : Nat
deriving DecidableEq, Repr

/-- The initial `usePolling` state: no timer, not polling, no error. -/
def initPoll : PollState :=
  { nextId := 0
    activeTimers := []
    intervalRef := none
    isPolling := false
    pollError := none
    immediateRuns := 0 }

/-- The `start` operation of `usePolling`: early return when
`intervalRef.current` is set, otherwise mark polling, clear the error,
run the callback once when `immediate` is set, and schedule a fresh
interval timer stored in the ref. -/
def pollStart (interval : Nat) (immediate : Bool) (s : PollState) : PollState :=
  if s.intervalRef.isSome then s
  else
    { s with
        isPolling := true
        pollError := none
        immediateRuns := s.immediateRuns + (if immediate then 1 else 0)
        activeTimers := s.activeTimers ++ [(s.nextId, interval)]
        intervalRef := some s.nextId
        nextId := s.nextId + 1 }

/-- The `stop` operation of `usePolling`: `clearInterval` on the held
timer when present, clear the ref, and mark not polling. -/
def pollStop (s : PollState) : PollState :=
  match s.intervalRef with
  | some id =>
      { s with
          activeTimers := s.activeTimers.filter (fun t => !(t.1 = id : Bool))
          intervalRef := none
          isPolling := false }
  | none => { s with isPolling := false }

/-- Number of refresh-callback invocations after `elapsed` time units:
each live `setInterval` timer with interval `i` fires `elapsed / i` times,
plus the synchronous immediate invocations already made. -/
def invocationCount (s : PollState) (elapsed : Nat) : Nat :=
  s.immediateRuns + (s.activeTimers.map (fun t => elapsed / t.2)).sum

theorem mem_jsSetAdd {y x : String} {s : List String} :
    y ∈ jsSetAdd s x ↔ y ∈ s ∨ y = x := by
  unfold jsSetAdd
  split
  · rename_i hmem
    constructor
    · exact fun h => Or.inl h
    · rintro (h | rfl)
      · exact h
      · exact hmem
  · simp

theorem nodup_jsSetAdd {s : List String} (h : s.Nodup) (x : String) :
    (jsSetAdd s x).Nodup := by
  unfold jsSetAdd
  split
  · exact h
  · rename_i hmem
    simpa [List.nodup_append] using ⟨h, hmem⟩

theorem jsSetAdd_of_not_mem {s : List String} {x : String} (h : x ∉ s) :
    jsSetAdd s x = s ++ [x] := by
  simp [jsSetAdd, h]

theorem foldl_jsSetAdd_eq_append (l : List String) (acc : List String)
    (h : (acc ++ l).Nodup) : l.foldl jsSetAdd acc = acc ++ l := by
  induction l generalizing acc with
  | nil => simp
  | cons x xs ih =>
    have hx : x ∉ acc := by
      intro hmem
      exact (List.disjoint_of_nodup_append h) hmem (List.mem_cons_self x xs)
    rw [List.foldl_cons, jsSetAdd_of_not_mem hx, ih (acc ++ [x]) (by simpa using h)]
    simp

theorem jsSetOfList_eq_of_nodup {l : List String} (h : l.Nodup) : jsSetOfList l = l := by
  unfold jsSetOfList
  simpa using foldl_jsSetAdd_eq_append l [] (by simpa using h)

theorem mem_foldl_jsSetAdd (y : String) (l acc : List String) :
    y ∈ l.foldl jsSetAdd acc ↔ y ∈ acc ∨ y ∈ l := by
  induction l generalizing acc with
  | nil => simp
  | cons x xs ih =>
    rw [List.foldl_cons, ih]
    rw [mem_jsSetAdd]
    simp only [List.mem_cons]
    tauto

theorem mem_jsSetOfList {y : String} {l : List String} : y ∈ jsSetOfList l ↔ y ∈ l := by
  unfold jsSetOfList
  simpa using mem_foldl_jsSetAdd y l []

/-- C6: for every UserVoteState, serializing it to SerializableUserVoteState
(voted set encoded as a list, timestamp as a string) and then deserializing
reproduces an equivalent UserVoteState: same session id, same voted set as a
set, same total. -/
theorem serialize_deserialize_round_trip (u : UserVoteState) :
    (deserializeVoteState (serializeVoteState u)).sessionId = u.sessionId ∧
    (deserializeVoteState (serializeVoteState u)).totalVotes = u.totalVotes ∧
    (∀ c : String,
      c ∈ (deserializeVoteState (serializeVoteState u)).votedContestants ↔
        c ∈ u.votedContestants) := by
  refine ⟨rfl, rfl, fun c => ?_⟩
  simp [deserializeVoteState, serializeVoteState, mem_jsSetOfList]

/-- Concrete demo session used to instantiate the scenario claims:
vote cap 3, active, window `[0, 1000]`. -/
def demoSession : VotingSession :=
  { id := "s1"
    isActive := true
    startTime := 0
    endTime := 1000
    maxVotesPerUser := 3
    contestants := ["x", "y", "z", "w"] }

/-- The system right after `setSession(demoSession)` at instant 10. -/
def demoStart : SysState := setSessionOp (some demoSession) 10 initSys

/-- The system after `addVote('x')`, `addVote('y')`, `addVote('z')` each
with a resolving submission. -/
def demoAfterThree : SysState :=
  (addVoteOp "z" none 13 (addVoteOp "y" none 12 (addVoteOp "x" none 11 demoStart).1).1).1

/-- C4: starting from a session with `maxVotesPerUser = 3` and an empty
voted set, `addVote('x')`, `addVote('y')`, `addVote('z')` with each
submission succeeding yields `totalVotes == 3` and `canVote() == false`,
and a fourth `addVote('w')` yields the voting-limit error, dispatches no
submission, and leaves everything but the surfaced error unchanged. -/
theorem vote_cap_scenario :
    demoStart.voting.userVoteState.votedContestants = [] ∧
    demoAfterThree.voting.userVoteState.totalVotes = 3 ∧
    demoAfterThree.voting.userVoteState.votedContestants = ["x", "y", "z"] ∧
    canVote demoAfterThree.voting = false ∧
    (addVoteOp "w" none 14 demoAfterThree).1 =
      { demoAfterThree with
          voting := { demoAfterThree.voting with error := some voteLimitError } } ∧
    (addVoteOp "w" none 14 demoAfterThree).2 = false := by
  decide

/-- The system after one persisted vote, used to exhibit the behaviour of
`resetState` on persisted storage. -/
def demoAfterOne : SysState := (addVoteOp "x" none 11 demoStart).1

/-- C7 counterexample: `resetState()` does not clear the persisted storage
entries — after a persisted vote under the session-scoped key
`voting-state-s1`, calling `resetState()` leaves that entry in place, so
the claim that it "additionally clears the persisted storage entries for
all session-scoped keys under the store's namespace prefix" is false. -/
theorem reset_does_not_clear_storage :
    storeRead demoAfterOne.store "voting-state-s1" =
      some { sessionId := "s1", votedContestants := ["x"], totalVotes := 1,
             lastUpdated := isoString 11 } ∧
    storeRead (resetStateOp 20 demoAfterOne).store "voting-state-s1" =
      some { sessionId := "s1", votedContestants := ["x"], totalVotes := 1,
             lastUpdated := isoString 11 } := by
  decide

/-- C7 (amended): `resetState()` restores every field of the store
(session, contestants, userVoteState, votingWindowActive, loading, error)
to its empty/initial value, and leaves the persisted storage entries
untouched (clearing them is done by the separate page-level reset flow,
not by `resetState`). -/
theorem reset_restores_fields_keeps_storage (now : Int) (s : SysState) :
    resetStateOp now s = { voting := initialState, store := s.store } := by
  simp [resetStateOp, votingReducer, applyPersist, initialState]

/-- C8: for every value and key, when `setStoredValue` hits a throwing
underlying storage facility, the error is captured as a StorageError in
the error field and is not propagated as an exception to the caller (the
operation is a total function into states), while the in-memory value
still updates to the new value and the persisted entry is untouched. -/
theorem storage_write_error_captured {T : Type} (key : String) (st : LocalStore T) (v : T)
    (h : st.isSupported = true) :
    (setStoredValue key st v true).value = v ∧
    (setStoredValue key st v true).error = some (storageWriteError key) ∧
    (storageWriteError key).type = ErrorType.STORAGE_ERROR ∧
    (setStoredValue key st v true).stored = st.stored := by
  refine ⟨?_, ?_, rfl, ?_⟩ <;> simp [setStoredValue, h]

/-- Witness for C8 at a concrete store and value. -/
theorem storage_write_error_captured_witness :
    (setStoredValue "k" (⟨0, none, none, true⟩ : LocalStore Nat) 7 true).value = 7 ∧
    (setStoredValue "k" (⟨0, none, none, true⟩ : LocalStore Nat) 7 true).error =
      some (storageWriteError "k") ∧
    (storageWriteError "k").type = ErrorType.STORAGE_ERROR ∧
    (setStoredValue "k" (⟨0, none, none, true⟩ : LocalStore Nat) 7 true).stored = none :=
  storage_write_error_captured "k" ⟨0, none, none, true⟩ 7 rfl

/-- C9: repeated `stop()` calls on the polling controller are no-ops, and
repeated `start()` calls while it is already active do not create
duplicate timers: over any elapsed time the refresh callback is invoked
exactly `elapsed / interval` times, plus one initial call when the
immediate flag is set, not a multiple. -/
theorem polling_start_stop_idempotent :
    (∀ s : PollState, pollStop (pollStop s) = pollStop s) ∧
    (∀ s : PollState, s.intervalRef = none → s.isPolling = false → pollStop s = s) ∧
    (∀ (s : PollState) (interval : Nat) (immediate : Bool),
      s.intervalRef.isSome → pollStart interval immediate s = s) ∧
    (∀ (s : PollState) (interval : Nat) (immediate : Bool) (elapsed : Nat),
      s.intervalRef = none → s.activeTimers = [] → s.immediateRuns = 0 →
      invocationCount (pollStart interval immediate (pollStart interval immediate s)) elapsed =
        (if immediate then 1 else 0) + elapsed / interval) := by
  refine ⟨fun s => ?_, fun s h1 h2 => ?_, fun s interval immediate h => ?_,
    fun s interval immediate elapsed h1 h2 h3 => ?_⟩
  · cases h : s.intervalRef <;> simp [pollStop, h]
  · cases s
    simp_all [pollStop]
  · simp [pollStart, h]
  · have hstart : (pollStart interval immediate s).intervalRef = some s.nextId := by
      simp [pollStart, h1]
    rw [pollStart, hstart]
    simp [pollStart, h1, h2, h3, invocationCount, Nat.add_comm]

/-- Witness for C9: scenario C of the spec — interval 1000, immediate off,
2500 elapsed, with a redundant second `start()` — exactly 2 invocations;
plus idempotent `stop()` on the initial state. -/
theorem polling_start_stop_idempotent_witness :
    pollStop (pollStop initPoll) = pollStop initPoll ∧
    pollStop initPoll = initPoll ∧
    invocationCount (pollStart 1000 false (pollStart 1000 false initPoll)) 2500 = 2 := by
  refine ⟨polling_start_stop_idempotent.1 initPoll,
    polling_start_stop_idempotent.2.1 initPoll rfl rfl, ?_⟩
  have := polling_start_stop_idempotent.2.2.2 initPoll 1000 false 2500 rfl rfl rfl
  simpa using this

theorem applyPersist_voting (now : Int) (s : SysState) :
    (applyPersist now s).voting = s.voting := by
  unfold applyPersist
  dsimp only
  split_ifs <;> rfl

theorem addVoteOp_votedContestants (cid : String) (outcome : Option String) (now : Int)
    (s : SysState) :
    (addVoteOp cid outcome now s).1.voting.userVoteState.votedContestants =
      s.voting.userVoteState.votedContestants ∨
    (addVoteOp cid outcome now s).1.voting.userVoteState.votedContestants =
      jsSetAdd s.voting.userVoteState.votedContestants cid := by
  unfold addVoteOp
  split_ifs with h1 h2
  · left; rfl
  · left; rfl
  · cases outcome with
    | none =>
        right
        show (applyPersist now _).voting.userVoteState.votedContestants = _
        rw [applyPersist_voting]
        simp [votingReducer]
    | some msg => left; rfl

/-- C3: for every contestant id already in the voted set, `addVote` fails
fast with the AlreadyVoted error, changes nothing but the surfaced error,
and makes no submission attempt; the membership is preserved by any
further `addVote`, so every repeat call yields the same outcome until an
explicit reset. The same fail-fast behaviour holds for the
`useContestantVoting.vote` handler. -/
theorem already_voted_fails_fast :
    (∀ (s : SysState) (cid : String) (outcome : Option String) (now : Int),
      cid ∈ s.voting.userVoteState.votedContestants →
        addVoteOp cid outcome now s =
          ({ s with voting := { s.voting with error := some alreadyVotedError } }, false)) ∧
    (∀ (s : SysState) (cid c' : String) (outcome : Option String) (now : Int),
      cid ∈ s.voting.userVoteState.votedContestants →
        cid ∈ (addVoteOp c' outcome now s).1.voting.userVoteState.votedContestants) ∧
    (∀ (now cid : String) (st : HookState) (outcome : SubmitOutcome),
      cid ∈ st.voteState.votedContestants →
        voteOp now cid st outcome =
          ({ st with
              error := some (createVoteError cid .ALREADY_VOTED
                "You have already voted for this contestant" false) }, false)) := by
  refine ⟨fun s cid outcome now h => ?_, fun s cid c' outcome now h => ?_,
    fun now cid st outcome h => ?_⟩
  · simp [addVoteOp, votingReducer, h]
  · rcases addVoteOp_votedContestants c' outcome now s with he | he <;> rw [he]
    · exact h
    · exact mem_jsSetAdd.2 (Or.inl h)
  · simp [voteOp, h]

/-- Witness for C3 at a concrete voted state: after a successful vote for
`x`, a repeat `addVote('x')` fails fast with the AlreadyVoted error and no
submission, and `x` stays voted through a further `addVote('y')`. -/
theorem already_voted_fails_fast_witness :
    addVoteOp "x" none 15 demoAfterOne =
      ({ demoAfterOne with
          voting := { demoAfterOne.voting with error := some alreadyVotedError } }, false) ∧
    "x" ∈ (addVoteOp "y" none 15 demoAfterOne).1.voting.userVoteState.votedContestants ∧
    voteOp "t2" "x" ⟨false, 1, none, ⟨"s1", ["x"], 1, "t1"⟩, some ⟨"s1", ["x"], 1, "t1"⟩⟩
        (.response true 5 none) =
      ({ isVoting := false, voteCount := 1,
         error := some (createVoteError "x" .ALREADY_VOTED
           "You have already voted for this contestant" false),
         voteState := ⟨"s1", ["x"], 1, "t1"⟩, stored := some ⟨"s1", ["x"], 1, "t1"⟩ }, false) :=
  ⟨already_voted_fails_fast.1 demoAfterOne "x" none 15 (by decide),
   already_voted_fails_fast.2.1 demoAfterOne "x" "y" none 15 (by decide),
   already_voted_fails_fast.2.2 "t2" "x" _ (.response true 5 none) (by decide)⟩

/-- C10: when `addVote(contestantId)` is called for a not-yet-voted
contestant but `canVote()` is false for any reason — missing session,
inactive voting window, or vote cap reached — the store surfaces the same
"You have reached your voting limit" vote error, changes nothing but the
surfaced error, and makes no submission attempt; a closed window or
missing session produces this limit error, not a distinct window-closed
error. -/
theorem cannot_vote_yields_limit_error :
    (∀ s : VotingState, s.session = none → canVote s = false) ∧
    (∀ s : VotingState, s.votingWindowActive = false → canVote s = false) ∧
    (∀ (s : VotingState) (sess : VotingSession), s.session = some sess →
      sess.maxVotesPerUser ≤ s.userVoteState.totalVotes → canVote s = false) ∧
    (∀ (s : SysState) (cid : String) (outcome : Option String) (now : Int),
      cid ∉ s.voting.userVoteState.votedContestants →
      canVote s.voting = false →
        addVoteOp cid outcome now s =
          ({ s with voting := { s.voting with error := some voteLimitError } }, false)) ∧
    voteLimitError.message = "You have reached your voting limit" := by
  refine ⟨fun s h => ?_, fun s h => ?_, fun s sess h1 h2 => ?_,
    fun s cid outcome now h1 h2 => ?_, rfl⟩
  · simp [canVote, h]
  · cases hs : s.session <;> simp [canVote, hs, h]
  · simp [canVote, h1, Nat.not_lt.2 h2]
  · simp [addVoteOp, votingReducer, h1, h2]

/-- Witness for C10: on the initial system (no session, window inactive),
`addVote('x')` for the unvoted contestant `x` surfaces the voting-limit
error with no submission. -/
theorem cannot_vote_yields_limit_error_witness :
    canVote initialState = false ∧
    addVoteOp "x" none 0 initSys =
      ({ initSys with voting := { initSys.voting with error := some voteLimitError } }, false) :=
  ⟨cannot_vote_yields_limit_error.1 initialState rfl,
   cannot_vote_yields_limit_error.2.2.2.1 initSys "x" none 0 (by decide)
     (cannot_vote_yields_limit_error.1 initialState rfl)⟩

/-- C2: for every `vote` call of `useContestantVoting` that passes local
validation (not yet voted, none in flight), the handler first applies the
optimistic phase — inserts the contestant into the voted set, increments
the total, stamps the timestamp, persists the new serialized state — and
only then resolves the dispatched submission; when the submission fails
(rejected promise or unsuccessful response) the prior voted state, prior
count and prior persisted value are restored exactly and a recoverable
error carrying a retry action for the same contestant is surfaced. -/
theorem optimistic_update_with_rollback (now : String) (cid : String) (st : HookState)
    (hnv : cid ∉ st.voteState.votedContestants) (hif : st.isVoting = false)
    (hsync : st.stored = some st.voteState) :
    (∀ outcome : SubmitOutcome,
      voteOp now cid st outcome =
        (voteFinish cid st.voteState st.voteCount outcome (voteStart now cid st), true)) ∧
    (voteStart now cid st).voteState.votedContestants =
      st.voteState.votedContestants ++ [cid] ∧
    (voteStart now cid st).voteState.totalVotes = st.voteState.totalVotes + 1 ∧
    (voteStart now cid st).voteState.lastUpdated = now ∧
    (voteStart now cid st).stored = some (voteStart now cid st).voteState ∧
    (∀ msg : String,
      (voteOp now cid st (.thrown msg)).1.voteState = st.voteState ∧
      (voteOp now cid st (.thrown msg)).1.stored = st.stored ∧
      (voteOp now cid st (.thrown msg)).1.voteCount = st.voteCount ∧
      (voteOp now cid st (.thrown msg)).1.error =
        some { code := .NETWORK_FAILURE, message := msg, recoverable := true,
               retryContestantId := some cid }) ∧
    (∀ (vc : Nat) (e : Option String),
      (voteOp now cid st (.response false vc e)).1.voteState = st.voteState ∧
      (voteOp now cid st (.response false vc e)).1.stored = st.stored ∧
      (voteOp now cid st (.response false vc e)).1.voteCount = st.voteCount ∧
      (voteOp now cid st (.response false vc e)).1.error =
        some { code := (classifyServerError e).1, message := (classifyServerError e).2,
               recoverable := true, retryContestantId := some cid }) := by
  refine ⟨fun outcome => ?_, rfl, rfl, rfl, rfl, fun msg => ?_, fun vc e => ?_⟩
  · simp [voteOp, hnv, hif]
  · simp [voteOp, voteFinish, voteStart, createVoteError, hnv, hif, hsync]
  · simp [voteOp, voteFinish, voteStart, createVoteError, hnv, hif, hsync]

/-- Witness for C2 at a concrete fresh hook state: a vote for `x` whose
submission rejects is fully rolled back and carries a retry for `x`. -/
theorem optimistic_update_with_rollback_witness :
    (voteOp "t1" "x" ⟨false, 0, none, ⟨"s1", [], 0, "t0"⟩, some ⟨"s1", [], 0, "t0"⟩⟩
        (.thrown "Network error: Failed to submit vote")).1.voteState =
      (⟨"s1", [], 0, "t0"⟩ : SerializableUserVoteState) ∧
    (voteOp "t1" "x" ⟨false, 0, none, ⟨"s1", [], 0, "t0"⟩, some ⟨"s1", [], 0, "t0"⟩⟩
        (.thrown "Network error: Failed to submit vote")).1.stored =
      some (⟨"s1", [], 0, "t0"⟩ : SerializableUserVoteState) ∧
    (voteOp "t1" "x" ⟨false, 0, none, ⟨"s1", [], 0, "t0"⟩, some ⟨"s1", [], 0, "t0"⟩⟩
        (.thrown "Network error: Failed to submit vote")).1.error =
      some { code := .NETWORK_FAILURE, message := "Network error: Failed to submit vote",
             recoverable := true, retryContestantId := some "x" } := by
  have h := optimistic_update_with_rollback "t1" "x"
    ⟨false, 0, none, ⟨"s1", [], 0, "t0"⟩, some ⟨"s1", [], 0, "t0"⟩⟩
    (by decide) rfl rfl
  have hf := h.2.2.2.2.2.1 "Network error: Failed to submit vote"
  exact ⟨hf.1, hf.2.1, hf.2.2.2⟩

/-- Concrete in-flight hook state: a fresh state for contestant `x` right
after the optimistic phase, its submission still outstanding. -/
def inFlightDemo : HookState :=
  voteStart "t1" "x" ⟨false, 0, none, ⟨"s1", [], 0, "t0"⟩, some ⟨"s1", [], 0, "t0"⟩⟩

/-- C5 counterexample: a repeat `vote` call for `x` issued while the
earlier submission for `x` is still outstanding is not a no-op — it
changes the hook state, surfacing an ALREADY_VOTED error (the optimistic
insert has already marked `x` as voted, so the already-voted guard fires
before the in-flight guard is reached). -/
theorem repeat_vote_in_flight_changes_state :
    (voteOp "t2" "x" inFlightDemo (.response true 5 none)).1 ≠ inFlightDemo ∧
    (voteOp "t2" "x" inFlightDemo (.response true 5 none)).1.error =
      some (createVoteError "x" .ALREADY_VOTED
        "You have already voted for this contestant" false) := by
  decide

/-- C5 (amended): a repeat `vote(c)` call issued while an earlier
submission for `c` is still outstanding dispatches no second submission
and leaves the voted set, total, persisted value, vote count and in-flight
flag unchanged, but it is not silent: it surfaces an ALREADY_VOTED error,
because the optimistic insert has already recorded `c` in the voted set. -/
theorem repeat_vote_in_flight_no_second_submission (now now2 cid : String) (st : HookState)
    (outcome : SubmitOutcome) :
    (voteOp now2 cid (voteStart now cid st) outcome).2 = false ∧
    (voteOp now2 cid (voteStart now cid st) outcome).1 =
      { voteStart now cid st with
          error := some (createVoteError cid .ALREADY_VOTED
            "You have already voted for this contestant" false) } := by
  constructor <;> simp [voteOp, voteStart]

/-- Well-formedness of an in-memory user vote state: the voted list is a
genuine set (duplicate-free) and the counter matches its size. -/
def voteInvariant (u : UserVoteState) : Prop :=
  u.votedContestants.Nodup ∧ u.totalVotes = u.votedContestants.length

/-- Well-formedness of a persisted serialized vote state. -/
def storedInvariant (v : SerializableUserVoteState) : Prop :=
  v.votedContestants.Nodup ∧ v.totalVotes = v.votedContestants.length

/-- Well-formedness of the whole system: the live vote state and every
persisted entry are well formed. -/
def sysInvariant (s : SysState) : Prop :=
  voteInvariant s.voting.userVoteState ∧ ∀ kv ∈ s.store, storedInvariant kv.2

theorem storedInvariant_serialize {u : UserVoteState} (h : voteInvariant u) :
    storedInvariant (serializeVoteState u) := h

theorem voteInvariant_deserialize {v : SerializableUserVoteState} (h : storedInvariant v) :
    voteInvariant (deserializeVoteState v) := by
  obtain ⟨hn, ht⟩ := h
  constructor
  · show (jsSetOfList v.votedContestants).Nodup
    rw [jsSetOfList_eq_of_nodup hn]
    exact hn
  · show v.totalVotes = (jsSetOfList v.votedContestants).length
    rw [jsSetOfList_eq_of_nodup hn]
    exact ht

theorem storedInvariant_storeWrite {m : VoteStore} {k : String} {v : SerializableUserVoteState}
    (hm : ∀ kv ∈ m, storedInvariant kv.2) (hv : storedInvariant v) :
    ∀ kv ∈ storeWrite m k v, storedInvariant kv.2 := by
  intro kv hkv
  unfold storeWrite at hkv
  split at hkv
  · rcases List.mem_map.1 hkv with ⟨p, hp, hpe⟩
    by_cases hk : p.1 = k
    · rw [if_pos hk] at hpe
      rw [← hpe]
      exact hv
    · rw [if_neg hk] at hpe
      rw [← hpe]
      exact hm p hp
  · rcases List.mem_append.1 hkv with hmem | hmem
    · exact hm kv hmem
    · rw [List.mem_singleton.1 hmem]
      exact hv

theorem storedInvariant_storedVoteState (now : Int) {s : SysState}
    (hs : ∀ kv ∈ s.store, storedInvariant kv.2) :
    storedInvariant (storedVoteState now s) := by
  unfold storedVoteState storeRead
  cases hf : s.store.find? (fun p => p.1 = storageKey s.voting) with
  | none => simp [hf, defaultStorageState, storedInvariant]
  | some p =>
      simp only [hf, Option.map_some', Option.getD_some]
      exact hs p (List.mem_of_find?_eq_some hf)

theorem sysInvariant_applyPersist (now : Int) {s : SysState} (h : sysInvariant s) :
    sysInvariant (applyPersist now s) := by
  obtain ⟨hv, hs⟩ := h
  unfold applyPersist
  dsimp only
  split_ifs with h1 h2
  · exact ⟨hv, hs⟩
  · exact ⟨hv, storedInvariant_storeWrite hs (storedInvariant_serialize hv)⟩
  · exact ⟨hv, hs⟩

theorem voteInvariant_setSession (now : Int) (st : VotingState) (sess : Option VotingSession)
    (h : voteInvariant st.userVoteState) :
    voteInvariant (votingReducer now st (.SET_SESSION sess)).userVoteState := by
  cases sess <;> exact h

theorem voteInvariant_addVote (now : Int) {st : VotingState} {cid : String}
    (hnv : cid ∉ st.userVoteState.votedContestants) (h : voteInvariant st.userVoteState) :
    voteInvariant (votingReducer now st (.ADD_VOTE cid)).userVoteState := by
  obtain ⟨hn, ht⟩ := h
  constructor
  · show (jsSetAdd st.userVoteState.votedContestants cid).Nodup
    exact nodup_jsSetAdd hn cid
  · show st.userVoteState.totalVotes + 1 = (jsSetAdd st.userVoteState.votedContestants cid).length
    rw [jsSetAdd_of_not_mem hnv]
    simp [ht]

theorem sysInvariant_setSessionOp (sess : Option VotingSession) (now : Int) {s : SysState}
    (h : sysInvariant s) : sysInvariant (setSessionOp sess now s) := by
  apply sysInvariant_applyPersist
  exact ⟨voteInvariant_setSession now s.voting sess h.1, h.2⟩

theorem sysInvariant_addVoteOp (cid : String) (outcome : Option String) (now : Int)
    {s : SysState} (h : sysInvariant s) : sysInvariant (addVoteOp cid outcome now s).1 := by
  unfold addVoteOp
  split_ifs with h1 h2
  · exact ⟨h.1, h.2⟩
  · exact ⟨h.1, h.2⟩
  · cases outcome with
    | none =>
        apply sysInvariant_applyPersist
        exact ⟨voteInvariant_addVote now h1 h.1, h.2⟩
    | some msg => exact ⟨h.1, h.2⟩

theorem sysInvariant_resetStateOp (now : Int) {s : SysState} (h : sysInvariant s) :
    sysInvariant (resetStateOp now s) := by
  apply sysInvariant_applyPersist
  exact ⟨⟨List.nodup_nil, rfl⟩, h.2⟩

theorem sysInvariant_restoreOp (now : Int) {s : SysState} (h : sysInvariant s) :
    sysInvariant (restoreOp now s) := by
  apply sysInvariant_applyPersist
  unfold applyRestore
  cases hs : s.voting.session with
  | none => exact h
  | some sess =>
      dsimp only
      split_ifs with hc
      · exact ⟨voteInvariant_deserialize (storedInvariant_storedVoteState now h.2), h.2⟩
      · exact h

theorem sysInvariant_reachable {s : SysState} (h : Reachable s) : sysInvariant s := by
  induction h with
  | init =>
      refine ⟨⟨List.nodup_nil, rfl⟩, ?_⟩
      intro kv hkv
      cases hkv
  | step hr hstep ih =>
      cases hstep with
      | setSession sess now => exact sysInvariant_setSessionOp sess now ih
      | addVote cid outcome now => exact sysInvariant_addVoteOp cid outcome now ih
      | reset now => exact sysInvariant_resetStateOp now ih
      | restore now => exact sysInvariant_restoreOp now ih

/-- C1: for every reachable state of the Vote State Store (initial state
followed by any sequence of the public operations setSession, addVote,
resetState, and storage restore), the counter
`userVoteState.totalVotes` equals the number of elements of
`userVoteState.votedContestants`. -/
theorem total_votes_eq_voted_set_size (s : SysState) (h : Reachable s) :
    s.voting.userVoteState.totalVotes =
      s.voting.userVoteState.votedContestants.toFinset.card := by
  obtain ⟨⟨hn, ht⟩, _⟩ := sysInvariant_reachable h
  rw [ht, List.toFinset_card_of_nodup hn]

/-- Witness for C1 at a concrete reachable state: after `setSession` and a
successful `addVote('x')`. -/
theorem total_votes_eq_voted_set_size_witness :
    demoAfterOne.voting.userVoteState.totalVotes =
      demoAfterOne.voting.userVoteState.votedContestants.toFinset.card :=
  total_votes_eq_voted_set_size demoAfterOne
    (Reachable.step
      (Reachable.step Reachable.init (SysStep.setSession initSys (some demoSession) 10))
      (SysStep.addVote demoStart "x" none 11))

end VotingApp
